import Mathlib

/-!
Shallow embedding of `src/wimpy/model.py` (the `Model` class of the blueice /
wimpy repository) together with the parts of its collaborators that the
verified properties need.

Conventions:
* Python numbers are embedded as `ℚ` (the code only performs ring operations,
  comparisons and floor division on them), Python lists as `List`.
* A Python function that can raise is embedded as a function into
  `Except PyError _`; a *method that mutates its object* and can raise midway
  is embedded as a function returning `State × Option PyError`, so that the
  mutations performed before an exception was raised stay visible, exactly as
  in Python.
* `model.py` references three names that are defined nowhere — `c` (line 61),
  `model` (line 141) and `m` (line 242).  Evaluating such a name in Python
  raises `NameError`; each is embedded as an `evalGlobal…` definition that
  returns that error.
-/

namespace Wimpy

/-- The kinds of Python exceptions the embedded code can raise.
`nameError s` is `NameError: name 's' is not defined`. -/
inductive PyError where
  | nameError (missingName : String)
  | typeError (msg : String)
  | valueError (msg : String)
  | indexError
deriving DecidableEq

/-- A `source_id` argument: `Model.get_source_i` accepts either an `int`
(or `float`, which it truncates — embedded as the already-truncated `ℤ`)
or a `str`. -/
inductive SourceId where
  | int (i : ℤ)
  | str (s : String)
deriving DecidableEq

/-- Python substring containment `needle in hay` for strings. -/
def pyStrIn (needle hay : String) : Bool :=
  (List.range (hay.toList.length + 1)).any fun i =>
    ((hay.toList.drop i).take needle.toList.length) == needle.toList

/-- Normalize a (possibly negative) Python list index against a list length:
`some j` with `0 ≤ j < len` when the access is legal, `none` when it would
raise `IndexError`. -/
def pyNorm (len : ℕ) (i : ℤ) : Option ℕ :=
  let j := if i < 0 then i + len else i
  if 0 ≤ j ∧ j < len then some j.toNat else none

/-- Python list indexing `l[i]` (negative indices count from the end):
the element at the normalized index when the access is legal, `IndexError`
otherwise. -/
def pyIndex {α : Type} (l : List α) (i : ℤ) : Except PyError α :=
  match (pyNorm l.length i).bind l.get? with
  | some a => Except.ok a
  | none => Except.error PyError.indexError

/-- Python `del l[i]` (negative indices count from the end). -/
def pyDelIdx {α : Type} (l : List α) (i : ℤ) : Except PyError (List α) :=
  match pyNorm l.length i with
  | some j => Except.ok (l.eraseIdx j)
  | none => Except.error PyError.indexError

/-- A multidimensional count (or density) array, stored flat in row-major
order together with its shape, as a `numpy` array is.  `multihist.Histdd`
wraps such an array; only its `histogram` payload matters here. -/
structure NDHist where
  shape : List ℕ
  data : List ℚ
deriving DecidableEq

/-- Modelled from the spec: `multihist.Histdd.n`, the total count accumulated
in the histogram.  The multihist library is not part of `src/`; the spec's
Histogram Accumulator section describes a total-count tracker, and the
parallel branch of `compute_source_pdf` (line 106) merges bare count arrays
`mh.histogram += r` without updating any separate tally, so `n` must be (and
in multihist is) the sum of the stored counts — events that fell outside the
bin grid are dropped by the histogramming and are not part of `n`. -/
def NDHist.n (h : NDHist) : ℚ := h.data.sum

/-- `numpy.diff` on a 1-dimensional array of bin edges: consecutive
differences, i.e. the per-dimension bin widths. -/
def npDiff (l : List ℚ) : List ℚ :=
  (l.zip l.tail).map fun p => p.2 - p.1

/-- `numpy.outer(*args)` as called on line 121 with a *list* of per-dimension
width vectors.  `np.outer(a, b)` is the outer product of exactly two vectors;
its full signature is `outer(a, b, out=None)`.  Hence:
* two arguments: the outer product, shape `(len a, len b)`;
* zero or one argument: `TypeError` (missing required positional arguments);
* three arguments: the third is passed as `out`; `out` must be a 2-d array of
  shape `(len a, len b)`, but a width vector is 1-dimensional, so numpy
  always raises (non-matching output operand);
* four or more: `TypeError` (too many positional arguments). -/
def npOuterStar (args : List (List ℚ)) : Except PyError (List (List ℚ)) :=
  match args with
  | [a, b] => Except.ok (a.map fun x => b.map fun y => x * y)
  | [] => Except.error (PyError.typeError "outer missing 2 required positional arguments")
  | [_] => Except.error (PyError.typeError "outer missing 1 required positional argument")
  | [_, _, _] => Except.error (PyError.valueError "output operand does not match the outer product shape")
  | _ => Except.error (PyError.typeError "outer takes from 2 to 3 positional arguments")

/-- `mh.n` for a histogram kept as a nested (2-dimensional) list of counts:
the total count accumulated, `histogram.sum()`. -/
def mhTotal (counts : List (List ℚ)) : ℚ := (counts.map List.sum).sum

/-- A source, as `Model` sees it.  Fields mirror `wimpy.Source`
(`src/wimpy/source.py` is not part of `src/`; the fields and the `pdf`
capability are those the spec's Source contract lists and `model.py` uses).
`fraction_in_range` and `pdf_histogram` are unset until
`compute_source_pdf` fills them.  `pdf` is the external density-evaluation
capability: it takes the `to_space` coordinate arrays and returns one density
value per event. -/
structure Source where
  name : String
  analysis_target : Bool
  events_per_day : ℚ
  n_events_for_pdf : ℕ
  fraction_in_range : Option ℚ
  pdf_histogram : Option NDHist
  pdf : List (List ℚ) → List ℚ

/-- A per-source configuration spec, as consumed by the `Source` constructor:
the source's static attributes, plus an optional precomputed
`pdf_histogram`. -/
structure SourceSpec where
  name : String
  analysis_target : Bool
  events_per_day : ℚ
  n_events_for_pdf : ℕ
  pdf_histogram : Option NDHist

/-- The configuration keys `model.py` reads, plus the class attribute
`exposure_factor` (line 32, default 1). -/
structure Config where
  livetime_days : ℚ
  exposure_factor : ℚ
  pdf_sampling_batch_size : ℕ
  pdf_sampling_multiplier : ℚ
  force_pdf_recalculation : Bool

/-- The mutable source registry of a `Model`: the active list
`self.sources` and `self.dormant_sources`. -/
structure ModelSources where
  sources : List Source
  dormant_sources : List Source

/-- Modelled from the spec: the `Source(config, source_spec)` constructor
(`src/wimpy/source.py` is not in `src/`).  Per the spec's Source contract it
takes the source's attributes from the spec; `pdf_histogram` is the
precomputed histogram when the spec supplies one and unset otherwise;
`fraction_in_range` starts unset; the `pdf` simulation/evaluation capability
is external and passed in as `pdfFun`. -/
def makeSource (pdfFun : List (List ℚ) → List ℚ) (spec : SourceSpec) : Source :=
  { name := spec.name
    analysis_target := spec.analysis_target
    events_per_day := spec.events_per_day
    n_events_for_pdf := spec.n_events_for_pdf
    fraction_in_range := none
    pdf_histogram := spec.pdf_histogram
    pdf := pdfFun }

/-- The `for s_i, s in enumerate(...)` / `break` search of
`Model.get_source_i` (lines 131-133): index of the first source whose name
contains `q` as a substring. -/
def findNameIdx (q : String) : List Source → Option ℕ
  | [] => none
  | s :: rest =>
    if pyStrIn q s.name then some 0 else (findNameIdx q rest).map (· + 1)

/-- `Model.get_source_i` (lines 127-136): an `int` (or `float`) id is
returned as-is; a string id is looked up by substring match in the given
list (`self.sources`, or `self.dormant_sources` when `from_dormant=True` —
the caller passes the list it asked for); no match raises
`ValueError("Unknown source ...")`. -/
def get_source_i (searched : List Source) (source_id : SourceId) : Except PyError ℤ :=
  match source_id with
  | SourceId.int i => Except.ok i
  | SourceId.str q =>
    match findNameIdx q searched with
    | some i => Except.ok (i : ℤ)
    | none => Except.error (PyError.valueError ("Unknown source " ++ q))

/-- Line 141 of `Model.activate_source` evaluates `model.sources`.  `model`
is not a parameter, not a local, and not defined at module level in
`model.py`, so evaluating it raises `NameError`. -/
def evalGlobal_model : Except PyError (List Source) := Except.error (PyError.nameError "model")

/-- Line 61 of `Model._init_sources` evaluates `c['force_pdf_recalculation']`.
`c` is not defined anywhere in `model.py`, so evaluating it raises
`NameError`. -/
def evalGlobal_c : Except PyError Config := Except.error (PyError.nameError "c")

/-- Line 242 of `Model.loglikelihood` evaluates `m.sources`.  `m` is not
defined anywhere in `model.py`, so evaluating it raises `NameError`. -/
def evalGlobal_m : Except PyError (List Source) := Except.error (PyError.nameError "m")

/-- `Model.deactivate_source(source_id, force=False)` (lines 154-161).
Returns the new `(sources, dormant_sources)` state together with the raised
exception, if any; an exception leaves the state as it was at the moment of
the raise. -/
def deactivate_source (st : ModelSources) (source_id : SourceId) (force : Bool) :
    ModelSources × Option PyError :=
  match get_source_i st.sources source_id with
  | Except.error e => (st, some e)
  | Except.ok i =>
    match pyIndex st.sources i with
    | Except.error e => (st, some e)
    | Except.ok s =>
      if !force && s.analysis_target then
        (st, some (PyError.valueError "Cannot deactivate the analysis target: please activate a new one instead."))
      else
        -- line 160: self.dormant_sources.append(s); line 161: del self.sources[source_i]
        match pyDelIdx st.sources i with
        | Except.error e => ({ st with dormant_sources := st.dormant_sources ++ [s] }, some e)
        | Except.ok sources2 =>
          ({ sources := sources2, dormant_sources := st.dormant_sources ++ [s] }, none)

/-- The membership test `source_id in [s.name for s in ...]` on line 141:
an `int` id is never equal to a `str` name; a `str` id tests list
membership. -/
def pyInNames (sid : SourceId) (names : List String) : Bool :=
  match sid with
  | SourceId.int _ => false
  | SourceId.str q => names.contains q

/-- `Model.activate_source(source_id)` (lines 138-152).  The first executed
statement (line 141) evaluates the undefined global `model`, so every call
raises `NameError` before reaching the lookup; the rest of the body is
embedded faithfully behind that evaluation:
* already-active check: warn and return (no state change);
* dormant lookup via `get_source_i(source_id, from_dormant=True)`;
* target branch (lines 146-149): `deactivate_source(-1, force=True)` — the
  *last* active source, whatever it is — then append the new source;
* non-target branch (line 151): `self.sources[:-1] + [s] + self.sources[-1]`
  first indexes `self.sources[-1]`, then adds that bare `Source` to a list,
  which is a `TypeError`;
* finally (line 152) `del self.dormant_sources[dormant_source_i]`. -/
def activate_source (st : ModelSources) (source_id : SourceId) :
    ModelSources × Option PyError :=
  match evalGlobal_model with
  | Except.error e => (st, some e)
  | Except.ok gsources =>
    if pyInNames source_id (gsources.map Source.name) then
      (st, none)
    else
      match get_source_i st.dormant_sources source_id with
      | Except.error e => (st, some e)
      | Except.ok di =>
        match pyIndex st.dormant_sources di with
        | Except.error e => (st, some e)
        | Except.ok s =>
          if s.analysis_target then
            match deactivate_source st (SourceId.int (-1)) true with
            | (st1, some e) => (st1, some e)
            | (st1, none) =>
              let st2 : ModelSources := { st1 with sources := st1.sources ++ [s] }
              match pyDelIdx st2.dormant_sources di with
              | Except.error e => (st2, some e)
              | Except.ok ds2 => ({ st2 with dormant_sources := ds2 }, none)
          else
            match pyIndex st.sources (-1) with
            | Except.error e => (st, some e)
            | Except.ok _ =>
              (st, some (PyError.typeError "can only concatenate list (not Source) to list"))

/-- The per-spec body of `Model._init_sources` (lines 56-63): construct the
source; if `source.pdf_histogram is None` the `or` short-circuits and the
PDF is computed; otherwise the second disjunct evaluates the undefined
global `c`.  `computePdf` stands for the `self.compute_source_pdf(source)`
call (whose simulation side is external). -/
def initSourceStep (computePdf : Source → Except PyError Source)
    (pdfFun : List (List ℚ) → List ℚ) (spec : SourceSpec) : Except PyError Source :=
  let source := makeSource pdfFun spec
  match source.pdf_histogram with
  | none => computePdf source
  | some _ =>
    match evalGlobal_c with
    | Except.error e => Except.error e
    | Except.ok cfg =>
      if cfg.force_pdf_recalculation then computePdf source else Except.ok source

/-- `Model._init_sources` (lines 54-64): process the specs in order,
collecting the constructed sources; the first exception aborts. -/
def init_sources (computePdf : Source → Except PyError Source)
    (pdfFun : List (List ℚ) → List ℚ) (specs : List SourceSpec) :
    Except PyError (List Source) :=
  specs.foldlM (fun acc sp => do
    let s ← initSourceStep computePdf pdfFun sp
    pure (acc ++ [s])) []

/-- Lines 76-77 of `Model.compute_source_pdf`:
`n_batches = int((source.n_events_for_pdf * multiplier) // batch_size + 1)`.
Python `//` is floor division; the values are nonnegative in every use, so
the final `int(...)` truncation is the identity on the already-integral
float. -/
def n_batches (n_events_for_pdf : ℕ) (pdf_sampling_multiplier : ℚ) (batch_size : ℕ) : ℤ :=
  ⌊(n_events_for_pdf * pdf_sampling_multiplier) / batch_size⌋ + 1

/-- Line 78: `n_events = n_batches * batch_size`, the total number of
simulated events. -/
def n_events_total (n_events_for_pdf : ℕ) (pdf_sampling_multiplier : ℚ) (batch_size : ℕ) : ℤ :=
  n_batches n_events_for_pdf pdf_sampling_multiplier batch_size * batch_size

/-- The normalization tail of `Model.compute_source_pdf` (lines 113-121),
after the simulation batches have been accumulated into `mh`:
* line 113: `source.fraction_in_range = mh.n / n_events`;
* lines 119-120: `source.pdf_histogram` becomes a blank copy whose payload is
  `mh.histogram / mh.n` (note: divided by `mh.n`, the count accumulated in
  the histogram, not by `n_events`);
* line 121: `source.pdf_histogram.histogram /= np.outer(*[np.diff(bins[i])
  ...])` — the in-place element-wise division by the outer product of the
  per-dimension bin widths (row-major flattening matches numpy's C order;
  `Histdd`'s shape is exactly the widths' outer shape, so no numpy
  broadcasting arises when the shapes agree, and disagreement would raise).
Each field assignment happens before the next statement can raise, so the
returned state carries all mutations made up to the exception, if one is
raised.  Lines 124-125 compute the purely informational `pdf_errors` field
(a real square root of the counts); no verified property mentions it and it
is not tracked here. -/
def computeSourcePdfTail (bins : List (List ℚ)) (n_events : ℚ) (mh : NDHist)
    (source : Source) : Source × Option PyError :=
  let source := { source with fraction_in_range := some (mh.n / n_events) }
  let source := { source with
    pdf_histogram := some ⟨mh.shape, mh.data.map fun x => x / mh.n⟩ }
  match npOuterStar (bins.map npDiff) with
  | Except.error e => (source, some e)
  | Except.ok outerW =>
    let flatW := outerW.flatten
    if mh.data.length = flatW.length then
      ({ source with
          pdf_histogram := some ⟨mh.shape,
            List.zipWith (fun x w => x / w) (mh.data.map fun x => x / mh.n) flatW⟩ },
        none)
    else
      (source, some (PyError.valueError "operands could not be broadcast together"))

/-- Lines 119-121 of `compute_source_pdf` in the two-dimensional case (the
only dimensionality in which line 121 succeeds), with the histogram kept as
a nested list: entry `(i, j)` of the stored density is
`counts[i][j] / mh.n / (width0[i] * width1[j])`. -/
def pdfHistogram2d (counts : List (List ℚ)) (bins0 bins1 : List ℚ) : List (List ℚ) :=
  (counts.zip (npDiff bins0)).map fun rw =>
    (rw.1.zip (npDiff bins1)).map fun cw => cw.1 / mhTotal counts / (rw.2 * cw.2)

/-- The density as claim C1 words it: the accumulated bin counts divided by
the total number of *simulated* events `n_events`, then element-wise by the
outer product of the per-dimension bin widths.  Kept for comparison with
`pdfHistogram2d`, the density the code actually stores. -/
def claimedDensity2d (counts : List (List ℚ)) (bins0 bins1 : List ℚ) (n_events : ℚ) :
    List (List ℚ) :=
  (counts.zip (npDiff bins0)).map fun rw =>
    (rw.1.zip (npDiff bins1)).map fun cw => cw.1 / n_events / (rw.2 * cw.2)

/-- The integral of a (2-dimensional) density array against the bin volumes
of the analysis-space grid: `Σ_ij density[i][j] * width0[i] * width1[j]`. -/
def integralAgainstVolumes (density : List (List ℚ)) (bins0 bins1 : List ℚ) : ℚ :=
  ((density.zip (npDiff bins0)).map fun rw =>
    ((rw.1.zip (npDiff bins1)).map fun dw => dw.1 * (rw.2 * dw.2)).sum).sum

/-- `Model.to_space(d)` (lines 218-220): the list, in dimension order, of the
arrays of the events' coordinates in that dimension.  An event is embedded as
its list of analysis-space coordinates, in dimension order. -/
def to_space (nDims : ℕ) (d : List (List ℚ)) : List (List ℚ) :=
  (List.range nDims).map fun i => d.map fun e => e.getD i 0

/-- `Model.score_events(d)` (lines 222-224): one row per active source, in
`sources` order; row `s` is `s.pdf(*self.to_space(d))`, the source's density
at each event. -/
def score_events (sources : List Source) (nDims : ℕ) (d : List (List ℚ)) :
    List (List ℚ) :=
  sources.map fun s => s.pdf (to_space nDims d)

/-- `Model.expected_events(s)` for a single source (line 232):
`s.events_per_day * livetime_days * s.fraction_in_range * exposure_factor`.
`fraction_in_range` has been filled by PDF estimation by the time this runs;
the unset case (`getD 0`) never arises in the verified properties. -/
def expected_events_one (cfg : Config) (s : Source) : ℚ :=
  s.events_per_day * cfg.livetime_days * s.fraction_in_range.getD 0 * cfg.exposure_factor

/-- `Model.expected_events()` with no argument (lines 230-231): the array of
per-source expectations over all active sources, in `sources` order. -/
def expected_events_all (cfg : Config) (sources : List Source) : List ℚ :=
  sources.map (expected_events_one cfg)

/-- Modelled from the spec: `utils.extended_maximum_likelihood(mu, ps)` (the
`utils` module is not in `src/`): the extended-maximum-likelihood value
`Σ_events log(Σ_sources mu_s * p_s(event)) − Σ_sources mu_s`, normalization
constants dropped.  The logarithm is passed in as a parameter to keep the
embedding exact and executable (`ℚ` has no real logarithm); no verified
property depends on its values. -/
def extended_maximum_likelihood (log : ℚ → ℚ) (mu : List ℚ) (ps : List (List ℚ)) : ℚ :=
  ((List.range ((ps.headD []).length)).map fun i =>
    log (((mu.zip ps).map fun mp => mp.1 * mp.2.getD i 0).sum)).sum - mu.sum

/-- `Model.loglikelihood(d, mu=None, ps=None)` (lines 234-246):
* if `ps is None`, `ps = self.score_events(d)` (line 240);
* if `mu is None`, line 242 builds `[self.expected_events(s) for s in
  m.sources]` — the comprehension first evaluates its iterable `m.sources`,
  and `m` is an undefined global, so `NameError` is raised before any
  `expected_events` call;
* otherwise the value of `utils.extended_maximum_likelihood(mu, ps)` is
  returned. -/
def loglikelihood (log : ℚ → ℚ) (cfg : Config) (st : ModelSources) (nDims : ℕ)
    (d : List (List ℚ)) (mu : Option (List ℚ)) (ps : Option (List (List ℚ))) :
    Except PyError ℚ :=
  let ps := ps.getD (score_events st.sources nDims d)
  match mu with
  | some mu => Except.ok (extended_maximum_likelihood log mu ps)
  | none =>
    match evalGlobal_m with
    | Except.error e => Except.error e
    | Except.ok msources =>
      Except.ok (extended_maximum_likelihood log
        (msources.map (expected_events_one cfg)) ps)

/-- The per-dimension part of `Model.range_cut`'s mask (lines 167-169): the
event's coordinate in every dimension lies between the dimension's first and
last bin edge, inclusive.  (`bin_edges[0]`/`bin_edges[-1]` on a dimension
with at least one edge; the spec guarantees at least two.) -/
def inRange (bins : List (List ℚ)) (e : List ℚ) : Bool :=
  (List.range bins.length).all fun i =>
    decide ((bins.getD i []).headI ≤ e.getD i 0) &&
    decide (e.getD i 0 ≤ (bins.getD i []).getLastI)

/-- `ps.sum(axis=0)` at event index `i`: the event's summed score over all
sources. -/
def sumScores (ps : List (List ℚ)) (i : ℕ) : ℚ :=
  (ps.map fun row => row.getD i 0).sum

/-- `Model.range_cut(d, ps=None)` (lines 163-177): keep the events whose
coordinates pass every dimension's edge test and whose summed score is
nonzero (`ps.sum(axis=0) != 0`, line 175); `ps` defaults to
`self.score_events(d)`.  The numpy boolean mask applied as `d[mask]` is
embedded as an index-aware filter. -/
def range_cut (bins : List (List ℚ)) (sources : List Source) (d : List (List ℚ))
    (ps? : Option (List (List ℚ))) : List (List ℚ) :=
  let ps := ps?.getD (score_events sources bins.length d)
  ((d.enum.filter fun ie =>
    inRange bins ie.2 && decide (sumScores ps ie.1 ≠ 0)).map Prod.snd)

/-! Concrete fixtures used by the closed theorems and witnesses below. -/

/-- A non-target background source (active, PDF already estimated). -/
def srcBG : Source :=
  { name := "bg", analysis_target := false, events_per_day := 10
    n_events_for_pdf := 100, fraction_in_range := some 1
    pdf_histogram := some ⟨[1, 1], [1]⟩, pdf := fun _ => [] }

/-- The active analysis-target source, last in `sources`. -/
def srcTGT : Source :=
  { name := "wimp_active", analysis_target := true, events_per_day := 1
    n_events_for_pdf := 100, fraction_in_range := some 1
    pdf_histogram := some ⟨[1, 1], [1]⟩, pdf := fun _ => [] }

/-- A dormant source flagged as analysis target. -/
def srcWIMP : Source :=
  { name := "wimp_50gev", analysis_target := true, events_per_day := 1
    n_events_for_pdf := 100, fraction_in_range := some 1
    pdf_histogram := some ⟨[1, 1], [1]⟩, pdf := fun _ => [] }

/-- A dormant non-target source. -/
def srcFLAT : Source :=
  { name := "flat", analysis_target := false, events_per_day := 2
    n_events_for_pdf := 100, fraction_in_range := some 1
    pdf_histogram := some ⟨[1, 1], [1]⟩, pdf := fun _ => [] }

/-- A freshly constructed source, PDF not yet estimated. -/
def srcNEW : Source :=
  { name := "new", analysis_target := false, events_per_day := 0
    n_events_for_pdf := 0, fraction_in_range := none
    pdf_histogram := none, pdf := fun _ => [] }

/-! Helper lemmas. -/

lemma getD_nonneg (row : List ℚ) (i : ℕ) (h : ∀ x ∈ row, 0 ≤ x) :
    0 ≤ row.getD i 0 := by
  induction row generalizing i with
  | nil => simp [List.getD]
  | cons a t ih =>
    cases i with
    | zero => simpa using h a (by simp)
    | succ j => simpa using ih j (fun x hx => h x (by simp [hx]))

lemma sumScores_nonneg (ps : List (List ℚ)) (i : ℕ)
    (h : ∀ row ∈ ps, ∀ x ∈ row, 0 ≤ x) : 0 ≤ sumScores ps i := by
  unfold sumScores
  apply List.sum_nonneg
  intro x hx
  simp only [List.mem_map] at hx
  obtain ⟨row, hrow, rfl⟩ := hx
  exact getD_nonneg row i (h row hrow)

lemma filter_enumFrom_map_snd_sublist {α : Type} (p : ℕ × α → Bool) :
    ∀ (l : List α) (n : ℕ),
      List.Sublist (((List.enumFrom n l).filter p).map Prod.snd) l := by
  intro l
  induction l with
  | nil => intro n; simp
  | cons a t ih =>
    intro n
    by_cases h : p (n, a)
    · simpa [List.enumFrom, List.filter_cons, h] using List.Sublist.cons₂ a (ih (n + 1))
    · simpa [List.enumFrom, List.filter_cons, h] using List.Sublist.cons a (ih (n + 1))

lemma filter_congr_mem {α : Type} (p q : α → Bool) :
    ∀ (l : List α), (∀ a ∈ l, p a = q a) → l.filter p = l.filter q := by
  intro l
  induction l with
  | nil => intro _; rfl
  | cons a t ih =>
    intro h
    have ht := ih fun x hx => h x (List.mem_cons_of_mem a hx)
    simp [List.filter_cons, h a (List.mem_cons_self a t), ht]

lemma row_integral_cancel (n w0 : ℚ) :
    ∀ (row ws : List ℚ), row.length = ws.length → (∀ w ∈ ws, w ≠ 0) → w0 ≠ 0 →
      ((((row.zip ws).map fun cw => cw.1 / n / (w0 * cw.2)).zip ws).map fun dw =>
        dw.1 * (w0 * dw.2)).sum = row.sum / n := by
  intro row
  induction row with
  | nil => intro ws _ _ _; simp
  | cons a t ih =>
    intro ws hlen hw hw0
    cases ws with
    | nil => simp at hlen
    | cons w ws2 =>
      have hw' : w ≠ 0 := hw w (by simp)
      have ht := ih ws2 (by simpa using hlen) (fun x hx => hw x (by simp [hx])) hw0
      simp only [List.zip_cons_cons, List.map_cons, List.sum_cons]
      rw [ht, div_mul_cancel₀ _ (mul_ne_zero hw0 hw'), add_div]

lemma grid_integral_cancel (n : ℚ) (w1s : List ℚ) (hw1 : ∀ w ∈ w1s, w ≠ 0) :
    ∀ (counts : List (List ℚ)) (w0s : List ℚ), counts.length = w0s.length →
      (∀ r ∈ counts, r.length = w1s.length) → (∀ w ∈ w0s, w ≠ 0) →
      ((((counts.zip w0s).map fun rw =>
          (rw.1.zip w1s).map fun cw => cw.1 / n / (rw.2 * cw.2)).zip w0s).map fun rw =>
        ((rw.1.zip w1s).map fun dw => dw.1 * (rw.2 * dw.2)).sum).sum
      = (counts.map List.sum).sum / n := by
  intro counts
  induction counts with
  | nil => intro w0s _ _ _; simp
  | cons r rs ih =>
    intro w0s hlen hrow hw0
    cases w0s with
    | nil => simp at hlen
    | cons w0 w0s2 =>
      have h1 := row_integral_cancel n w0 r w1s (hrow r (by simp)) hw1 (hw0 w0 (by simp))
      have h2 := ih w0s2 (by simpa using hlen) (fun x hx => hrow x (by simp [hx]))
        (fun x hx => hw0 x (by simp [hx]))
      simp only [List.zip_cons_cons, List.map_cons, List.sum_cons]
      rw [h1, h2, add_div]

lemma pyIndex_ok_elim {α : Type} (l : List α) (i : ℤ) (a : α)
    (h : pyIndex l i = Except.ok a) :
    ∃ j, pyNorm l.length i = some j ∧ l.get? j = some a := by
  unfold pyIndex at h
  rcases hb : (pyNorm l.length i).bind l.get? with _ | b
  · rw [hb] at h
    exact absurd h (by simp)
  · rw [hb] at h
    have hba : b = a := by simpa using h
    subst hba
    exact Option.bind_eq_some.mp hb

lemma npOuterStar_error_of_length_ne_two (args : List (List ℚ)) (h : args.length ≠ 2) :
    ∃ e, npOuterStar args = Except.error e := by
  match args with
  | [] => exact ⟨_, rfl⟩
  | [_] => exact ⟨_, rfl⟩
  | [_, _] => simp at h
  | [_, _, _] => exact ⟨_, rfl⟩
  | _ :: _ :: _ :: _ :: _ => exact ⟨_, rfl⟩

/-! Claim theorems. -/

/-- C8: every call of `activate_source` evaluates the undefined global name
`model` on line 141 and raises `NameError` with the state untouched — the
`UnknownSourceError` lookup failure and the already-active warning the claim
describes are unreachable. -/
theorem activate_source_always_name_error (st : ModelSources) (sid : SourceId) :
    activate_source st sid = (st, some (PyError.nameError "model")) := rfl

/-- C4: activating a dormant source flagged `analysis_target = true` while
another target is active does not swap the targets: the call raises
`NameError` (undefined global `model`, line 141) and leaves both source
lists unchanged. -/
theorem activate_target_name_error :
    activate_source { sources := [srcBG, srcTGT], dormant_sources := [srcWIMP] }
      (SourceId.str "wimp_50gev") =
    ({ sources := [srcBG, srcTGT], dormant_sources := [srcWIMP] },
      some (PyError.nameError "model")) := rfl

/-- C5: activating a dormant non-target source does not insert it
second-to-last: the call raises `NameError` (undefined global `model`, line
141) and leaves both source lists unchanged.  (Even with line 141 repaired,
line 151 adds the bare last `Source` to a list — a `TypeError`, embedded in
the corresponding branch of `activate_source`.) -/
theorem activate_nontarget_name_error :
    activate_source { sources := [srcBG, srcTGT], dormant_sources := [srcFLAT] }
      (SourceId.str "flat") =
    ({ sources := [srcBG, srcTGT], dormant_sources := [srcFLAT] },
      some (PyError.nameError "model")) := rfl

/-- C2: `loglikelihood` with `mu` omitted never uses `expected_events`: line
242 iterates over `m.sources` and `m` is an undefined global, so the call
raises `NameError` for every dataset and every `ps`. -/
theorem loglikelihood_default_mu_name_error (log : ℚ → ℚ) (cfg : Config)
    (st : ModelSources) (nDims : ℕ) (d : List (List ℚ)) (ps : Option (List (List ℚ))) :
    loglikelihood log cfg st nDims d none ps = Except.error (PyError.nameError "m") := rfl

/-- C9: at source initialization a spec *without* a precomputed histogram
goes through `compute_source_pdf`, but a spec *with* one makes line 61
evaluate the undefined global `c`, raising `NameError` instead of consulting
the force-recomputation flag, so model construction aborts. -/
theorem init_sources_precomputed_name_error
    (computePdf : Source → Except PyError Source)
    (pdfFun : List (List ℚ) → List ℚ) (spec : SourceSpec) (hist : NDHist) :
    initSourceStep computePdf pdfFun { spec with pdf_histogram := some hist } =
      Except.error (PyError.nameError "c") ∧
    initSourceStep computePdf pdfFun { spec with pdf_histogram := none } =
      computePdf (makeSource pdfFun { spec with pdf_histogram := none }) ∧
    init_sources computePdf pdfFun [{ spec with pdf_histogram := some hist }] =
      Except.error (PyError.nameError "c") := by
  refine ⟨rfl, rfl, ?_⟩
  simp [init_sources, initSourceStep, makeSource, evalGlobal_c]

/-- C1 (counterexample): with bin edges `[0,2] × [0,2]`, accumulated counts
`[[5]]` and `n_events = 10` (half the simulated events fell outside the
grid), the stored density is `counts / mh.n / widths = [[1/4]]`, not
`counts / n_events / widths = [[1/8]]` as the claim states, and its integral
against the bin volumes is `1`, not `fraction_in_range = mh.n / n_events =
1/2` — the discrepancy is the factor `fraction_in_range` itself, far outside
any `1/sqrt(n_events)` Monte-Carlo tolerance. -/
theorem pdf_histogram_normalization_counterexample :
    pdfHistogram2d [[5]] [0, 2] [0, 2] ≠ claimedDensity2d [[5]] [0, 2] [0, 2] 10 ∧
    integralAgainstVolumes (pdfHistogram2d [[5]] [0, 2] [0, 2]) [0, 2] [0, 2] ≠
      mhTotal [[5]] / 10 := by
  have h1 : pdfHistogram2d [[5]] [0, 2] [0, 2] = [[1/4]] := by
    norm_num [pdfHistogram2d, mhTotal, npDiff]
  have h2 : claimedDensity2d [[5]] [0, 2] [0, 2] 10 = [[1/8]] := by
    norm_num [claimedDensity2d, npDiff]
  have h3 : integralAgainstVolumes [[1/4]] [0, 2] [0, 2] = 1 := by
    norm_num [integralAgainstVolumes, npDiff]
  constructor
  · rw [h1, h2]
    norm_num
  · rw [h1, h3]
    norm_num [mhTotal]

/-- C1 (amended): the stored `pdf_histogram` is the accumulated counts
divided by `mh.n` — the number of events accumulated *in the histogram* —
and then element-wise by the outer product of the per-dimension bin widths;
consequently the density integrated against the bin volumes over the full
grid equals exactly 1 whenever any simulated event landed in range,
independently of `fraction_in_range`. -/
theorem pdf_histogram_integral_one (counts : List (List ℚ)) (bins0 bins1 : List ℚ)
    (hlen : counts.length = (npDiff bins0).length)
    (hrow : ∀ r ∈ counts, r.length = (npDiff bins1).length)
    (hw0 : ∀ w ∈ npDiff bins0, w ≠ 0)
    (hw1 : ∀ w ∈ npDiff bins1, w ≠ 0)
    (hn : mhTotal counts ≠ 0) :
    integralAgainstVolumes (pdfHistogram2d counts bins0 bins1) bins0 bins1 = 1 := by
  unfold integralAgainstVolumes pdfHistogram2d
  rw [grid_integral_cancel (mhTotal counts) (npDiff bins1) hw1 counts (npDiff bins0)
    hlen hrow hw0]
  exact div_self hn

/-- C1 (witness): the amended statement evaluated on the counterexample's
concrete input. -/
theorem pdf_histogram_integral_one_witness :
    integralAgainstVolumes (pdfHistogram2d [[5]] [0, 2] [0, 2]) [0, 2] [0, 2] = 1 :=
  pdf_histogram_integral_one [[5]] [0, 2] [0, 2] (by simp [npDiff]) (by simp [npDiff])
    (by norm_num [npDiff]) (by norm_num [npDiff]) (by norm_num [mhTotal])

/-- C6 (counterexample): with `n_events_for_pdf * multiplier = 100` and
`batch_size = 50` — the batch size dividing the requested count exactly —
the code computes `100 // 50 + 1 = 3` batches, not `ceil(100/50) = 2`. -/
theorem n_batches_ne_ceil :
    n_batches 100 1 50 ≠ ⌈((100 : ℕ) : ℚ) * 1 / ((50 : ℕ) : ℚ)⌉ := by
  have h2 : ((100 : ℕ) : ℚ) * 1 / ((50 : ℕ) : ℚ) = 2 := by norm_num
  unfold n_batches
  rw [h2]
  norm_num

/-- C6 (amended): `n_batches` is `floor(requested / batch_size) + 1` — at
least the ceiling and at most the ceiling plus one (one more exactly when
`batch_size` divides the requested count) — and `n_events = n_batches *
batch_size` is a whole number of batches that is never fewer than the
requested `n_events_for_pdf * multiplier`. -/
theorem n_batches_floor_spec (n : ℕ) (mult : ℚ) (b : ℕ) (hb : 0 < b) :
    ⌈(n * mult) / b⌉ ≤ n_batches n mult b ∧
    n_batches n mult b ≤ ⌈(n * mult) / b⌉ + 1 ∧
    (n * mult : ℚ) ≤ ((n_events_total n mult b : ℤ) : ℚ) := by
  have hbQ : (0 : ℚ) < (b : ℚ) := by exact_mod_cast hb
  refine ⟨Int.ceil_le_floor_add_one _, ?_, ?_⟩
  · have h := Int.floor_le_ceil ((n * mult) / b)
    unfold n_batches
    omega
  · unfold n_events_total n_batches
    have h := Int.lt_floor_add_one ((n * mult) / (b : ℚ))
    have h2 : ((n : ℚ) * mult) / b * b ≤ ((⌊(n * mult) / (b : ℚ)⌋ : ℚ) + 1) * b :=
      mul_le_mul_of_nonneg_right (le_of_lt h) (le_of_lt hbQ)
    rw [div_mul_cancel₀ _ (ne_of_gt hbQ)] at h2
    push_cast
    exact h2

/-- C6 (witness): the amended statement at the counterexample's input. -/
theorem n_batches_floor_spec_witness :
    ⌈((100 : ℕ) * (1 : ℚ)) / ((50 : ℕ) : ℚ)⌉ ≤ n_batches 100 1 50 ∧
    n_batches 100 1 50 ≤ ⌈((100 : ℕ) * (1 : ℚ)) / ((50 : ℕ) : ℚ)⌉ + 1 ∧
    ((100 : ℕ) * (1 : ℚ)) ≤ ((n_events_total 100 1 50 : ℤ) : ℚ) :=
  n_batches_floor_spec 100 1 50 (by norm_num)

/-- C3: `range_cut` keeps a subset (sublist) of the dataset's events, and —
whenever the scores are nonnegative, as densities are — an event is retained
exactly when its coordinate in every analysis dimension lies within the
dimension's first and last bin edge (inclusive) and its summed score over
all active sources is strictly positive. -/
theorem range_cut_spec (bins : List (List ℚ)) (sources : List Source)
    (d : List (List ℚ)) (ps? : Option (List (List ℚ)))
    (h : ∀ row ∈ ps?.getD (score_events sources bins.length d), ∀ x ∈ row, 0 ≤ x) :
    List.Sublist (range_cut bins sources d ps?) d ∧
    range_cut bins sources d ps? =
      (d.enum.filter fun ie =>
        inRange bins ie.2 &&
        decide (0 < sumScores (ps?.getD (score_events sources bins.length d)) ie.1)).map
        Prod.snd := by
  constructor
  · simp only [range_cut]
    exact filter_enumFrom_map_snd_sublist _ d 0
  · simp only [range_cut]
    congr 1
    apply filter_congr_mem
    intro ie _
    have h0 := sumScores_nonneg (ps?.getD (score_events sources bins.length d)) ie.1 h
    have hdec :
        decide (sumScores (ps?.getD (score_events sources bins.length d)) ie.1 ≠ 0) =
        decide (0 < sumScores (ps?.getD (score_events sources bins.length d)) ie.1) :=
      decide_eq_decide.mpr
        ⟨fun hne => lt_of_le_of_ne h0 (Ne.symm hne), fun hlt => ne_of_gt hlt⟩
    rw [hdec]

/-- C3 (witness): a one-dimensional space with edges `[0,1]`; the in-range
event `[1/2]` with positive summed score is kept, the out-of-range event
`[2]` is dropped. -/
theorem range_cut_spec_witness :
    List.Sublist (range_cut [[0, 1]] [] [[1/2], [2]] (some [[1, 1]])) [[1/2], [2]] ∧
    range_cut [[0, 1]] [] [[1/2], [2]] (some [[1, 1]]) =
      (([[1/2], [2]] : List (List ℚ)).enum.filter fun ie =>
        inRange [[0, 1]] ie.2 &&
        decide (0 < sumScores ((some [[1, 1]]).getD
          (score_events [] ([[0, 1]] : List (List ℚ)).length [[1/2], [2]])) ie.1)).map
        Prod.snd :=
  range_cut_spec [[0, 1]] [] [[1/2], [2]] (some [[1, 1]]) (by norm_num)

/-- C7: `deactivate_source` on a resolvable id: if the source is the
analysis target and `force` is false it raises
`CannotDeactivateTargetError` (a `ValueError` in the code) with both lists
untouched; otherwise it deletes the source from `sources` and appends that
same source to `dormant_sources`. -/
theorem deactivate_source_spec (st : ModelSources) (sid : SourceId) (force : Bool)
    (i : ℤ) (s : Source)
    (h1 : get_source_i st.sources sid = Except.ok i)
    (h2 : pyIndex st.sources i = Except.ok s) :
    (force = false → s.analysis_target = true →
      deactivate_source st sid force =
        (st, some (PyError.valueError
          "Cannot deactivate the analysis target: please activate a new one instead."))) ∧
    ((force = true ∨ s.analysis_target = false) →
      ∃ j, pyNorm st.sources.length i = some j ∧
        deactivate_source st sid force =
          ({ sources := st.sources.eraseIdx j,
             dormant_sources := st.dormant_sources ++ [s] }, none)) := by
  obtain ⟨j, hn, _⟩ := pyIndex_ok_elim st.sources i s h2
  constructor
  · intro hf ht
    simp [deactivate_source, h1, h2, hf, ht]
  · intro hor
    have hcond : (!force && s.analysis_target) = false := by
      rcases hor with hf | ht
      · simp [hf]
      · simp [ht]
    refine ⟨j, hn, ?_⟩
    simp [deactivate_source, h1, h2, hcond, pyDelIdx, hn]

/-- C7 (witness): deactivating the non-target source `"bg"` of a two-source
model without `force` moves it to the end of `dormant_sources` and removes
it from `sources`. -/
theorem deactivate_source_spec_witness :
    deactivate_source { sources := [srcBG, srcTGT], dormant_sources := [srcFLAT] }
      (SourceId.str "bg") false =
    ({ sources := [srcTGT], dormant_sources := [srcFLAT, srcBG] }, none) := by
  obtain ⟨-, h⟩ := deactivate_source_spec
    { sources := [srcBG, srcTGT], dormant_sources := [srcFLAT] }
    (SourceId.str "bg") false 0 srcBG rfl rfl
  obtain ⟨j, hj, he⟩ := h (Or.inr rfl)
  have hnorm : pyNorm ([srcBG, srcTGT] : List Source).length (0 : ℤ) = some 0 := rfl
  rw [hnorm] at hj
  injection hj with hj0
  subst hj0
  exact he

/-- C10 (counterexample): on a one-dimensional analysis space (edges
`[0,1]`, counts `[3]`, `n_events = 3`) the normalization fails — but only
*after* overwriting the source's `pdf_histogram`: the claim's "fails before
committing a density" is false. -/
theorem normalize_commits_partial_state :
    ((computeSourcePdfTail [[0, 1]] 3 ⟨[1], [3]⟩ srcNEW).2.isSome = true) ∧
    (computeSourcePdfTail [[0, 1]] 3 ⟨[1], [3]⟩ srcNEW).1.pdf_histogram ≠
      srcNEW.pdf_histogram := by
  constructor <;> simp [computeSourcePdfTail, npOuterStar, npDiff, srcNEW]

/-- C10 (amended): line 121's `np.outer(*[...])` succeeds only on exactly
two width vectors, so for every dimensionality other than 2 the
normalization raises — but only after line 113 has stored
`fraction_in_range = mh.n / n_events` and line 120 has overwritten
`pdf_histogram` with the `counts / mh.n` array (the bin-width division never
happens). -/
theorem normalize_fails_unless_two_dims (bins : List (List ℚ)) (nev : ℚ)
    (mh : NDHist) (src : Source) (h : bins.length ≠ 2) :
    ((computeSourcePdfTail bins nev mh src).2.isSome = true) ∧
    (computeSourcePdfTail bins nev mh src).1.pdf_histogram =
      some ⟨mh.shape, mh.data.map fun x => x / mh.n⟩ ∧
    (computeSourcePdfTail bins nev mh src).1.fraction_in_range =
      some (mh.n / nev) := by
  obtain ⟨e, he⟩ := npOuterStar_error_of_length_ne_two (bins.map npDiff) (by simpa using h)
  simp [computeSourcePdfTail, he]

/-- C10 (witness): the amended statement on the counterexample's concrete
one-dimensional input. -/
theorem normalize_fails_unless_two_dims_witness :
    ((computeSourcePdfTail [[0, 1]] 3 ⟨[1], [3]⟩ srcNEW).2.isSome = true) ∧
    (computeSourcePdfTail [[0, 1]] 3 ⟨[1], [3]⟩ srcNEW).1.pdf_histogram =
      some ⟨(⟨[1], [3]⟩ : NDHist).shape,
        (⟨[1], [3]⟩ : NDHist).data.map fun x => x / (⟨[1], [3]⟩ : NDHist).n⟩ ∧
    (computeSourcePdfTail [[0, 1]] 3 ⟨[1], [3]⟩ srcNEW).1.fraction_in_range =
      some ((⟨[1], [3]⟩ : NDHist).n / 3) :=
  normalize_fails_unless_two_dims [[0, 1]] 3 ⟨[1], [3]⟩ srcNEW (by decide)

end Wimpy
